import Mathlib

/-!
Verification of the custom-auth-system permission engine.

Shallow embedding of `permissions_system/services.py` (the decision engine),
`permissions_system/permissions.py` (the policy gate) and the grant upsert of
`permissions_system/views.py`, over list-valued stores mirroring the Django
tables of `permissions_system/models.py`.
-/

namespace Perms

/-- Python runtime faults that the embedded code can raise.  `nameError` models
reading a local variable before any assignment to it; `attributeError` models
attribute access on `None`; `multipleObjectsReturned` models Django's
`MultipleObjectsReturned` escaping a `.get(...)` call. -/
inductive PyErr where
  | nameError (name : String)
  | attributeError
  | multipleObjectsReturned
deriving Repr, DecidableEq

/-- Optional Python value passed as `resource_id`: `None`, an int, or a str. -/
inductive PyVal where
  | none
  | int (n : Int)
  | str (s : String)
deriving Repr, DecidableEq

/-- Python truthiness for the `if resource_id:` guard: `None`, `0` and `""`
are falsy, everything else truthy. -/
def PyVal.truthy : PyVal → Bool
  | .none => false
  | .int n => n != 0
  | .str s => s != ""

/-- Python `str(...)` on the values `resource_id` can take. -/
def PyVal.toStr : PyVal → String
  | .none => "None"
  | .int n => toString n
  | .str s => s

/-- `accounts.models.User` as the engine sees it: `id` is `none` for an
unsaved/anonymous principal that lacks a primary key. -/
structure User where
  id : Option Nat
  is_superuser : Bool
  is_active : Bool
  email : String
deriving Repr, DecidableEq

/-- `permissions_system.models.Permission` (the catalog row). -/
structure Permission where
  id : Nat
  code : String
  resource_type : String
  action : String
deriving Repr, DecidableEq

/-- `permissions_system.models.UserRole` row (user → role membership). -/
structure UserRoleRow where
  user_id : Nat
  role_id : Nat
deriving Repr, DecidableEq

/-- `permissions_system.models.RolePermission` row (role → permission FK). -/
structure RolePermissionRow where
  role_id : Nat
  permission_id : Nat
deriving Repr, DecidableEq

/-- `permissions_system.models.UserPermission` row (direct allow/deny). -/
structure UserPermissionRow where
  user_id : Nat
  permission_id : Nat
  is_granted : Bool
  granted_by : Option Nat
deriving Repr, DecidableEq

/-- `permissions_system.models.ResourcePermission` row (instance allow/deny);
`resource_id` is a CharField, hence a string. -/
structure ResourcePermissionRow where
  user_id : Nat
  resource_type : String
  resource_id : String
  permission_id : Nat
  is_granted : Bool
  granted_by : Option Nat
deriving Repr, DecidableEq

/-- The backing store: the grant tables plus the user and permission catalogs
that the administrative views look rows up in. -/
structure Store where
  users : List User
  permissions : List Permission
  user_roles : List UserRoleRow
  role_permissions : List RolePermissionRow
  user_permissions : List UserPermissionRow
  resource_permissions : List ResourcePermissionRow
deriving Repr, DecidableEq

/-- Outcome of Django's `Model.objects.get(...)`. -/
inductive GetResult (α : Type) where
  | found (x : α)
  | doesNotExist
  | multipleReturned
deriving Repr, DecidableEq

/-- Django `.get(...)`: exactly one matching row, else `DoesNotExist` or
`MultipleObjectsReturned`. -/
def djangoGet {α : Type} (rows : List α) (p : α → Bool) : GetResult α :=
  match rows.filter p with
  | [] => .doesNotExist
  | [x] => .found x
  | _ => .multipleReturned

/-- Resolve the `permission__code` join: the code of the permission row the
foreign key points at (foreign-key integrity makes the lookup total in the
database; a dangling id simply matches nothing here). -/
def permCode (st : Store) (pid : Nat) : Option String :=
  (st.permissions.find? (fun p => p.id == pid)).map (fun p => p.code)

/-- The denial log record written by `logger.warning` in `check_permission`
(the message interpolates `user.email` and `permission_code`). -/
structure DenialLog where
  email : String
  code : String
deriving Repr, DecidableEq

/-- `PermissionService._check_resource_permission` (services.py lines 60-79):
point lookup of ResourcePermission by `(user, resource_type, str(resource_id),
permission__code)`; `some b` is the row's `is_granted`, `none` means
`DoesNotExist` (continue to the next layer). -/
def _check_resource_permission (st : Store) (user : User) (permission_code : String)
    (resource_type : String) (resource_id : PyVal) : Except PyErr (Option Bool) :=
  match djangoGet st.resource_permissions (fun r =>
      some r.user_id == user.id && r.resource_type == resource_type
        && r.resource_id == resource_id.toStr
        && permCode st r.permission_id == some permission_code) with
  | .found r => .ok (some r.is_granted)
  | .doesNotExist => .ok none
  | .multipleReturned => .error .multipleObjectsReturned

/-- `PermissionService._check_user_permission` (services.py lines 81-98). -/
def _check_user_permission (st : Store) (user : User) (permission_code : String) :
    Except PyErr (Option Bool) :=
  match djangoGet st.user_permissions (fun r =>
      some r.user_id == user.id && permCode st r.permission_id == some permission_code) with
  | .found r => .ok (some r.is_granted)
  | .doesNotExist => .ok none
  | .multipleReturned => .error .multipleObjectsReturned

/-- `PermissionService._check_role_permission` (services.py lines 100-121):
gather the principal's role ids, then an existence check over RolePermission. -/
def _check_role_permission (st : Store) (user : User) (permission_code : String) : Bool :=
  let user_role_ids :=
    (st.user_roles.filter (fun ur => some ur.user_id == user.id)).map (fun ur => ur.role_id)
  if user_role_ids.isEmpty then false
  else st.role_permissions.any (fun rp =>
    user_role_ids.contains rp.role_id && permCode st rp.permission_id == some permission_code)

/-- `PermissionService.check_permission` (services.py lines 17-58), embedded
faithfully.  The result pairs the returned/raised value with the denial-log
events emitted during the call.  The principal is `Option User` because the
callers can pass `None`; attribute access on `None` at the superuser check
raises `AttributeError`.  After the superuser and active checks, both the
resource branch (line 42) and the direct-permission call (line 48) read the
local `permission_code`, which no statement of the function ever assigns, so
evaluation raises `NameError` there before any store lookup, any further
branching and the `logger.warning` call. -/
def check_permission (st : Store) (user : Option User) (resource_type action : String)
    (resource_id : PyVal) : Except PyErr Bool × List DenialLog :=
  match user with
  | Option.none => (.error .attributeError, [])
  | some u =>
    if u.is_superuser then (.ok true, [])
    else if !u.is_active then (.ok false, [])
    else
      let _ := st
      let _ := resource_type
      let _ := action
      let _ := resource_id
      (.error (.nameError "permission_code"), [])

/-- Modelled from the spec: the corrected decision engine of §4.1 and §9 —
the source's `check_permission` reads `permission_code` before any assignment
to it (a defect the spec flags), and the corrected engine computes
`permissionCode = resourceType + "." + action` once, first (step 3), then runs
exactly the layer logic of services.py lines 39-58 over the source-faithful
helpers `_check_resource_permission`, `_check_user_permission` and
`_check_role_permission`, logging a denial event only when the role-derived
fallback denies. -/
def check_permission_fixed (st : Store) (user : Option User) (resource_type action : String)
    (resource_id : PyVal) : Except PyErr Bool × List DenialLog :=
  match user with
  | Option.none => (.error .attributeError, [])
  | some u =>
    if u.is_superuser then (.ok true, [])
    else if !u.is_active then (.ok false, [])
    else
      let permission_code := resource_type ++ "." ++ action
      match (if resource_id.truthy then
          _check_resource_permission st u permission_code resource_type resource_id
        else .ok Option.none) with
      | .error e => (.error e, [])
      | .ok (some b) => (.ok b, [])
      | .ok Option.none =>
        match _check_user_permission st u permission_code with
        | .error e => (.error e, [])
        | .ok (some b) => (.ok b, [])
        | .ok Option.none =>
          let has_role_perm := _check_role_permission st u permission_code
          if has_role_perm then (.ok true, [])
          else (.ok false, [⟨u.email, permission_code⟩])

/-- `PermissionService.get_user_permissions` (services.py lines 123-160).  The
Python function builds a `set()`, updates it with the role-derived codes and
the granted direct codes, removes the denied direct codes last, and returns
`list(...)` of it; the embedding returns the underlying set. -/
def get_user_permissions (st : Store) (user : User) : Finset String :=
  if user.is_superuser then {"*.*"}
  else if !user.is_active then ∅
  else
    let user_role_ids :=
      (st.user_roles.filter (fun ur => some ur.user_id == user.id)).map (fun ur => ur.role_id)
    let role_permissions :=
      (st.role_permissions.filter (fun rp => user_role_ids.contains rp.role_id)).filterMap
        (fun rp => permCode st rp.permission_id)
    let user_permissions :=
      (st.user_permissions.filter (fun up => some up.user_id == user.id && up.is_granted)).filterMap
        (fun up => permCode st up.permission_id)
    let denied_permissions :=
      (st.user_permissions.filter (fun up =>
        some up.user_id == user.id && !up.is_granted)).filterMap
        (fun up => permCode st up.permission_id)
    (role_permissions.toFinset ∪ user_permissions.toFinset) \ denied_permissions.toFinset

/-- `HasResourcePermission.action_map` applied via `dict.get(action, action)`
(permissions.py lines 36-43 and 60): the six view actions map to canonical
actions, any other key falls back to itself. -/
def action_map (a : String) : String :=
  if a = "list" then "read"
  else if a = "retrieve" then "read"
  else if a = "create" then "create"
  else if a = "update" then "update"
  else if a = "partial_update" then "update"
  else if a = "destroy" then "delete"
  else a

/-- The attributes the gate reads off the view object via
`getattr(view, ..., None)`: `none` models an absent attribute, `some ""`
an attribute set to the empty string (both falsy under `if not ...`). -/
structure ViewCtx where
  resource_type : Option String
  action : Option String
deriving Repr, DecidableEq

/-- Python truthiness of `getattr(...)`: `None` and `""` are falsy. -/
def pyTruthyStr : Option String → Bool
  | Option.none => false
  | some s => s != ""

/-- `HasResourcePermission.has_permission` (permissions.py lines 45-67):
deny unauthenticated requests, permit views that set no `resource_type` or
no `action`, otherwise map the action and delegate to
`PermissionService.check_permission` with no resource id. -/
def has_permission (st : Store) (request_user : Option User) (is_authenticated : Bool)
    (view : ViewCtx) : Except PyErr Bool × List DenialLog :=
  if request_user.isNone || !is_authenticated then (.ok false, [])
  else if !(pyTruthyStr view.resource_type) || !(pyTruthyStr view.action) then (.ok true, [])
  else
    let resource_type := view.resource_type.getD ""
    let mapped_action := action_map (view.action.getD "")
    check_permission st request_user resource_type mapped_action .none

/-- HTTP-level outcome of the `grant_permission_to_user` view, keeping only
what the claims need: the 404 branches, 201 for a created row, 200 for an
updated one. -/
inductive GrantStatus where
  | userNotFound
  | permissionNotFound
  | created
  | updated
deriving Repr, DecidableEq

/-- The unique-key predicate of `UserPermission`: same `(user, permission)`
pair, the lookup key of `update_or_create(user=..., permission=...)`. -/
def upMatches (uid pid : Nat) (r : UserPermissionRow) : Bool :=
  r.user_id == uid && r.permission_id == pid

/-- Django `update_or_create` on `UserPermission` keyed by `(user, permission)`
with `is_granted` and `granted_by` as the defaults to write, over the list
store: update the matching row in place when one exists, otherwise append a
new row; the boolean is Django's `created` flag. -/
def update_or_create_user_permission (rows : List UserPermissionRow) (uid pid : Nat)
    (is_granted : Bool) (granted_by : Option Nat) : List UserPermissionRow × Bool :=
  if rows.any (upMatches uid pid) then
    (rows.map (fun r =>
      if upMatches uid pid r then
        { r with is_granted := is_granted, granted_by := granted_by }
      else r), false)
  else
    (rows ++ [⟨uid, pid, is_granted, granted_by⟩], true)

/-- `grant_permission_to_user` (views.py lines 183-223): look up the target
user and the permission (404 on either miss), then upsert the direct
UserPermission row with the request body's `is_granted` and the requesting
admin as `granted_by`. -/
def grant_permission_to_user (st : Store) (request_user_id : Option Nat) (user_id : Nat)
    (permission_id : Nat) (is_granted : Bool) : GrantStatus × Store :=
  match djangoGet st.users (fun u => u.id == some user_id) with
  | .doesNotExist => (.userNotFound, st)
  | .multipleReturned => (.userNotFound, st)
  | .found _ =>
    match djangoGet st.permissions (fun p => p.id == permission_id) with
    | .doesNotExist => (.permissionNotFound, st)
    | .multipleReturned => (.permissionNotFound, st)
    | .found _ =>
      let res := update_or_create_user_permission st.user_permissions user_id permission_id
        is_granted request_user_id
      ((if res.2 then .created else .updated), { st with user_permissions := res.1 })

/-! Concrete fixtures: the scenario of spec section 8 (role grant, direct
grant, resource-level deny on document 7) and small variations of it. -/

/-- Active non-superuser principal used in the concrete scenarios. -/
def uAlice : User := ⟨some 10, false, true, "alice@example.com"⟩

/-- Active non-superuser principal with an empty grant state. -/
def uBob : User := ⟨some 20, false, true, "bob@example.com"⟩

/-- Superuser principal sharing id 10, so the deny rows of the scenario
store target it. -/
def uRoot : User := ⟨some 10, true, true, "root@example.com"⟩

/-- Inactive non-superuser principal sharing id 10, so the grant rows of the
scenario store target it. -/
def uFrozen : User := ⟨some 10, false, false, "frozen@example.com"⟩

/-- Principal without a primary key (e.g. an unsaved or anonymous user),
inactive and not a superuser. -/
def uAnon : User := ⟨none, false, false, "anon@example.com"⟩

/-- Requesting administrator account. -/
def uAdmin : User := ⟨some 99, true, true, "admin@example.com"⟩

/-- Catalog row for the code document.read. -/
def permDocRead : Permission := ⟨1, "document.read", "document", "read"⟩

/-- Catalog row for the code project.read. -/
def permProjRead : Permission := ⟨2, "project.read", "project", "read"⟩

/-- Store with catalog and users but no grant rows at any layer. -/
def stEmpty : Store :=
  ⟨[uBob], [permDocRead, permProjRead], [], [], [], []⟩

/-- Scenario store: user 10 holds role 100 which grants document.read, has a
direct UserPermission grant for document.read, and a ResourcePermission deny
for document.read on document 7 — all three layers populated at once. -/
def stScenario : Store :=
  ⟨[uAlice], [permDocRead, permProjRead],
   [⟨10, 100⟩], [⟨100, 1⟩],
   [⟨10, 1, true, some 99⟩],
   [⟨10, "document", "7", 1, false, some 99⟩]⟩

/-- Deny-wins store: role 100 grants document.read and project.read, and a
direct UserPermission deny row exists for document.read. -/
def stDeny : Store :=
  ⟨[uAlice], [permDocRead, permProjRead],
   [⟨10, 100⟩], [⟨100, 1⟩, ⟨100, 2⟩],
   [⟨10, 1, false, some 99⟩],
   []⟩

/-- Store for the grant-upsert scenario: target user and catalog present, no
direct permission rows yet. -/
def stGrant : Store :=
  ⟨[uAlice, uAdmin], [permDocRead, permProjRead], [], [], [], []⟩

/-! Theorems. -/

/-- C1.  The claim says `Decide` computes the permission code before any layer
lookup and, for an active non-superuser with no matching grant at any layer,
completes with the normal deny `false`.  The code instead raises `NameError`:
`check_permission` reads the never-assigned local `permission_code`.  The
first conjunct evaluates the source-faithful engine at such an input and gets
the fault; the second shows the spec-modelled corrected engine (permission
code computed first, per section 4.1 step 3) returns the normal deny `false`
on the very same input. -/
theorem C1_permission_code_name_error :
    check_permission stEmpty (some uBob) "document" "read" PyVal.none
      = (.error (.nameError "permission_code"), []) ∧
    check_permission_fixed stEmpty (some uBob) "document" "read" PyVal.none
      = (.ok false, [⟨"bob@example.com", "document.read"⟩]) :=
  ⟨rfl, rfl⟩

/-- C2.  A superuser principal is allowed for every resource type, action,
resource id and every state of the grant stores: the superuser branch returns
before any store access, so deny rows at any layer are irrelevant. -/
theorem C2_superuser_always_allowed (st : Store) (u : User) (rt a : String) (rid : PyVal)
    (h : u.is_superuser = true) :
    check_permission st (some u) rt a rid = (.ok true, []) := by
  simp [check_permission, h]

/-- C2 witness: the scenario store holds an explicit resource-level deny row
for user id 10, yet the superuser with that id is allowed. -/
theorem C2_witness :
    check_permission stScenario (some uRoot) "document" "read" (.str "7") = (.ok true, []) :=
  C2_superuser_always_allowed stScenario uRoot "document" "read" (.str "7") rfl

/-- C3.  An inactive non-superuser principal is denied for every resource
type, action, resource id and every state of the grant stores: the active
check returns `false` before any store access, so grant rows are
irrelevant. -/
theorem C3_inactive_always_denied (st : Store) (u : User) (rt a : String) (rid : PyVal)
    (hs : u.is_superuser = false) (ha : u.is_active = false) :
    check_permission st (some u) rt a rid = (.ok false, []) := by
  simp [check_permission, hs, ha]

/-- C3 witness: the scenario store holds role, direct and resource grant rows
for user id 10, yet the inactive principal with that id is denied. -/
theorem C3_witness :
    check_permission stScenario (some uFrozen) "document" "read" PyVal.none = (.ok false, []) :=
  C3_inactive_always_denied stScenario uFrozen "document" "read" PyVal.none rfl rfl

/-- C4.  The claim describes the three-layer precedence on a store holding a
resource-level deny for document 7, a direct grant and a role grant at once:
`Decide` with id 7 should return `false` and with id 8 should return `true`.
On the source code both calls instead raise `NameError` on the never-assigned
`permission_code` before any layer is consulted (first two conjuncts); the
spec-modelled corrected engine exhibits exactly the claimed precedence (last
two conjuncts). -/
theorem C4_precedence_name_error :
    check_permission stScenario (some uAlice) "document" "read" (.str "7")
      = (.error (.nameError "permission_code"), []) ∧
    check_permission stScenario (some uAlice) "document" "read" (.str "8")
      = (.error (.nameError "permission_code"), []) ∧
    check_permission_fixed stScenario (some uAlice) "document" "read" (.str "7")
      = (.ok false, []) ∧
    check_permission_fixed stScenario (some uAlice) "document" "read" (.str "8")
      = (.ok true, []) :=
  ⟨rfl, rfl, rfl, rfl⟩

/-- C7 counterexample.  The claim says a principal lacking an ID is rejected
before step 1 with a distinct `InvalidPrincipal` hard failure.  Evaluating the
code on a principal with no primary key (and inactive) yields the ordinary
`Denied` result `.ok false` — no rejection, no distinct signal. -/
theorem C7_counterexample :
    check_permission stScenario (some uAnon) "document" "read" PyVal.none = (.ok false, []) :=
  rfl

/-- C7 amended: the code performs no principal validation and has no
`InvalidPrincipal` signal.  A `None` principal faults only at step 1 itself,
when the superuser attribute access raises `AttributeError`; a principal that
lacks an ID but exposes the flags is processed by the normal algorithm, so an
inactive one yields an ordinary `Denied` `false`, indistinguishable from any
other deny. -/
theorem C7_no_principal_validation (st : Store) (rt a : String) (rid : PyVal) :
    check_permission st none rt a rid = (.error .attributeError, []) ∧
    (∀ u : User, u.id = none → u.is_superuser = false → u.is_active = false →
      check_permission st (some u) rt a rid = (.ok false, [])) := by
  refine ⟨rfl, fun u _ hs ha => ?_⟩
  simp [check_permission, hs, ha]

/-- C7 witness: the amended statement applied to the concrete id-less
principal, and to the `None` principal. -/
theorem C7_witness :
    check_permission stScenario (some uAnon) "project" "read" PyVal.none = (.ok false, []) :=
  (C7_no_principal_validation stScenario "project" "read" PyVal.none).2 uAnon rfl rfl rfl

/-- C8 counterexample.  The claim says every `false` decision emits exactly
one denial audit event.  The inactive-principal denial emits none: the call
returns `false` with an empty event list. -/
theorem C8_counterexample :
    (check_permission stDeny (some uFrozen) "document" "read" PyVal.none).1 = .ok false ∧
    (check_permission stDeny (some uFrozen) "document" "read" PyVal.none).2 = [] :=
  ⟨rfl, rfl⟩

/-- C8 amended: the only emission point in the source is the role-fallback
denial log, and evaluation for an active non-superuser faults on the
never-assigned `permission_code` before reaching it, so in the code as
written no call to `check_permission` ever emits a denial event — in
particular denials from the inactive check emit none, and no event accompanies
a `true` decision. -/
theorem C8_no_denial_event (st : Store) (user : Option User) (rt a : String) (rid : PyVal) :
    (check_permission st user rt a rid).2 = [] := by
  cases user with
  | none => rfl
  | some u =>
    by_cases h : u.is_superuser = true <;> by_cases h2 : u.is_active = true <;>
      simp [check_permission, h, h2]

/-- Unfolding lemma: `None` is falsy. -/
theorem truthy_none : PyVal.none.truthy = false := rfl

/-- Unfolding lemma: an int is truthy iff nonzero. -/
theorem truthy_int (n : Int) : (PyVal.int n).truthy = (n != 0) := rfl

/-- Unfolding lemma: a str is truthy iff nonempty. -/
theorem truthy_str (s : String) : (PyVal.str s).truthy = (s != "") := rfl

/-- The digit accumulator of `Nat.toDigitsCore` never shrinks. -/
theorem toDigitsCore_length_ge (b : Nat) :
    ∀ (f n : Nat) (ds : List Char), ds.length ≤ (Nat.toDigitsCore b f n ds).length := by
  intro f
  induction f with
  | zero => intro n ds; exact Nat.le_refl _
  | succ f ih =>
    intro n ds
    simp only [Nat.toDigitsCore]
    by_cases h : n / b = 0
    · simp [h]
    · rw [if_neg h]
      exact Nat.le_trans (Nat.le_succ _) (ih (n / b) (Nat.digitChar (n % b) :: ds))

/-- The decimal representation of a natural number is never empty. -/
theorem repr_length_pos (n : Nat) : 0 < (Nat.repr n).length := by
  show 0 < (Nat.toDigitsCore 10 (n + 1) n []).length
  simp only [Nat.toDigitsCore]
  by_cases h : n / 10 = 0
  · simp [h]
  · rw [if_neg h]
    exact Nat.lt_of_lt_of_le (by simp)
      (toDigitsCore_length_ge 10 n (n / 10) [Nat.digitChar (n % 10)])

/-- The decimal representation of an integer is never the empty string, so
the decimal-string form of any integer id is truthy. -/
theorem int_toString_ne_empty (n : Int) : toString n ≠ "" := by
  intro he
  have h0 : (toString n).length = 0 := by rw [he]; rfl
  cases n with
  | ofNat m =>
    rw [show toString (Int.ofNat m) = Nat.repr m from rfl] at h0
    have := repr_length_pos m
    omega
  | negSucc m =>
    rw [show toString (Int.negSucc m) = "-" ++ Nat.repr (m + 1) from rfl] at h0
    rw [String.length_append] at h0
    have h1 : ("-" : String).length = 1 := by decide
    rw [h1] at h0
    omega

/-- The resource-layer lookup depends on the resource id only through its
`str(...)` image. -/
theorem check_resource_toStr_congr (st : Store) (u : User) (pc rt : String)
    (rid rid2 : PyVal) (h : rid.toStr = rid2.toStr) :
    _check_resource_permission st u pc rt rid = _check_resource_permission st u pc rt rid2 := by
  simp only [_check_resource_permission, h]

/-- A falsy resource id makes the corrected engine behave exactly as if no
resource id had been supplied. -/
theorem check_fixed_falsy_congr (st : Store) (user : Option User) (rt a : String)
    (rid : PyVal) (h : rid.truthy = false) :
    check_permission_fixed st user rt a rid = check_permission_fixed st user rt a PyVal.none := by
  cases user with
  | none => rfl
  | some u => simp [check_permission_fixed, h, truthy_none]

/-- Two truthy resource ids with the same `str(...)` image are interchangeable
in the corrected engine. -/
theorem check_fixed_truthy_congr (st : Store) (user : Option User) (rt a : String)
    (rid rid2 : PyVal) (h1 : rid.truthy = true) (h2 : rid2.truthy = true)
    (hs : rid.toStr = rid2.toStr) :
    check_permission_fixed st user rt a rid = check_permission_fixed st user rt a rid2 := by
  cases user with
  | none => rfl
  | some u =>
    simp only [check_permission_fixed, h1, h2, if_true,
      check_resource_toStr_congr st u (rt ++ "." ++ a) rt rid rid2 hs]

/-- C10.  The claim reads the `if resource_id:` guard and the `str(...)`
conversion off the source: a falsy resource id (None, `""`, `0`) skips the
resource layer and evaluation proceeds to the user and role layers, and
truthy ids are compared by string form.  On the source code evaluation
instead faults on the never-assigned `permission_code` for every active
non-superuser, falsy or truthy id alike (first two conjuncts); on the
spec-modelled corrected engine the claimed behavior holds: falsy ids are
interchangeable with no id at all, and truthy ids with equal string form —
an integer and its decimal string in particular — are interchangeable. -/
theorem C10_falsy_resource_id :
    (check_permission stScenario (some uAlice) "document" "read" (.str "")
       = (.error (.nameError "permission_code"), []) ∧
     check_permission stScenario (some uAlice) "document" "read" (.int 0)
       = (.error (.nameError "permission_code"), [])) ∧
    (∀ (st : Store) (user : Option User) (rt a : String),
       check_permission_fixed st user rt a (.str "")
         = check_permission_fixed st user rt a PyVal.none ∧
       check_permission_fixed st user rt a (.int 0)
         = check_permission_fixed st user rt a PyVal.none) ∧
    (∀ (st : Store) (user : Option User) (rt a : String) (n : Int), n ≠ 0 →
       check_permission_fixed st user rt a (.int n)
         = check_permission_fixed st user rt a (.str (toString n))) := by
  refine ⟨⟨rfl, rfl⟩, fun st user rt a => ⟨?_, ?_⟩, fun st user rt a n hn => ?_⟩
  · exact check_fixed_falsy_congr st user rt a (.str "") rfl
  · exact check_fixed_falsy_congr st user rt a (.int 0) rfl
  · refine check_fixed_truthy_congr st user rt a (.int n) (.str (toString n)) ?_ ?_ rfl
    · rw [truthy_int]; exact bne_iff_ne.mpr hn
    · rw [truthy_str]; exact bne_iff_ne.mpr (int_toString_ne_empty n)

/-- C10 witness: the integer id 7 and its decimal string are interchangeable
on the corrected engine over the concrete scenario store. -/
theorem C10_witness :
    check_permission_fixed stScenario (some uAlice) "document" "read" (.int 7)
      = check_permission_fixed stScenario (some uAlice) "document" "read" (.str "7") :=
  C10_falsy_resource_id.2.2 stScenario (some uAlice) "document" "read" 7 (by decide)

/-- C6.  The collection-level gate for an authenticated principal: when the
view sets both a truthy resource type and a truthy action, the gate returns
exactly what `check_permission` returns for the mapped action with no resource
id; the fixed map sends list and retrieve to read, create to create, update
and partial update to update, destroy to delete, and any other operation kind
to itself; when the resource type or the action is missing or empty the gate
returns the default permit `true`. -/
theorem C6_policy_gate (st : Store) (u : User) (view : ViewCtx) :
    (pyTruthyStr view.resource_type = true → pyTruthyStr view.action = true →
      has_permission st (some u) true view
        = check_permission st (some u) (view.resource_type.getD "")
            (action_map (view.action.getD "")) PyVal.none) ∧
    (pyTruthyStr view.resource_type = false ∨ pyTruthyStr view.action = false →
      has_permission st (some u) true view = (.ok true, [])) ∧
    (action_map "list" = "read" ∧ action_map "retrieve" = "read" ∧
     action_map "create" = "create" ∧ action_map "update" = "update" ∧
     action_map "partial_update" = "update" ∧ action_map "destroy" = "delete") ∧
    (∀ a2 : String, a2 ≠ "list" → a2 ≠ "retrieve" → a2 ≠ "create" → a2 ≠ "update" →
      a2 ≠ "partial_update" → a2 ≠ "destroy" → action_map a2 = a2) := by
  refine ⟨fun h1 h2 => ?_, fun h => ?_, by decide, fun a2 m1 m2 m3 m4 m5 m6 => ?_⟩
  · simp [has_permission, h1, h2]
  · rcases h with h | h <;> simp [has_permission, h]
  · simp [action_map, m1, m2, m3, m4, m5, m6]

/-- C6 witness: a view exposing resource type document and view action list is
checked as a document read with no resource id. -/
theorem C6_witness :
    has_permission stScenario (some uRoot) true ⟨some "document", some "list"⟩
      = check_permission stScenario (some uRoot) "document" (action_map "list") PyVal.none :=
  (C6_policy_gate stScenario uRoot ⟨some "document", some "list"⟩).1 (by decide) (by decide)

/-- C5.  `get_user_permissions`: a superuser gets the wildcard sentinel set,
an inactive principal the empty set, and an active non-superuser exactly the
union of the codes of all roles held plus the direct codes granted, minus the
direct codes denied — the subtraction applied last, so a denied code is
absent however it entered the union. -/
theorem C5_effective_permissions (st : Store) (u : User) :
    (u.is_superuser = true → get_user_permissions st u = {"*.*"}) ∧
    (u.is_superuser = false → u.is_active = false → get_user_permissions st u = ∅) ∧
    (u.is_superuser = false → u.is_active = true → ∀ c : String,
      c ∈ get_user_permissions st u ↔
        ((∃ rp ∈ st.role_permissions,
            (∃ ur ∈ st.user_roles, some ur.user_id = u.id ∧ ur.role_id = rp.role_id) ∧
            permCode st rp.permission_id = some c) ∨
         (∃ up ∈ st.user_permissions, some up.user_id = u.id ∧ up.is_granted = true ∧
            permCode st up.permission_id = some c)) ∧
        ¬ ∃ up ∈ st.user_permissions, some up.user_id = u.id ∧ up.is_granted = false ∧
            permCode st up.permission_id = some c) := by
  refine ⟨fun hs => by simp [get_user_permissions, hs],
          fun hs ha => by simp [get_user_permissions, hs, ha],
          fun hs ha c => ?_⟩
  simp only [get_user_permissions, hs, ha]
  simp [Finset.mem_sdiff, Finset.mem_union, List.mem_toFinset, List.mem_filterMap,
    List.mem_filter, List.mem_map, List.contains_iff_exists_mem_beq, beq_iff_eq]
  intro _
  constructor
  · rintro (⟨a, ⟨h1, a1, ⟨hm, he⟩, hr⟩, hp⟩ | ⟨a, ⟨hm, he, hg⟩, hp⟩)
    · exact Or.inl ⟨a, h1, ⟨a1, hm, he, hr⟩, hp⟩
    · exact Or.inr ⟨a, hm, he, hg, hp⟩
  · rintro (⟨a, h1, ⟨a1, hm, he, hr⟩, hp⟩ | ⟨a, hm, he, hg, hp⟩)
    · exact Or.inl ⟨a, ⟨h1, a1, ⟨hm, he⟩, hr⟩, hp⟩
    · exact Or.inr ⟨a, ⟨hm, he, hg⟩, hp⟩

/-- C5 witness: in the deny-wins store, role 100 grants both codes while a
direct deny row covers document.read; project.read is still a member of the
aggregate (the role-derived grant survives because no deny row names it). -/
theorem C5_witness :
    "project.read" ∈ get_user_permissions stDeny uAlice :=
  ((C5_effective_permissions stDeny uAlice).2.2 rfl rfl "project.read").mpr
    ⟨Or.inl ⟨⟨100, 2⟩, by decide, ⟨⟨10, 100⟩, by decide, by decide, by decide⟩, by decide⟩,
     by decide⟩

/-- A freshly written row matches its own key. -/
theorem upMatches_self (uid pid : Nat) (g : Bool) (b : Option Nat) :
    upMatches uid pid ⟨uid, pid, g, b⟩ = true := by
  simp [upMatches]

/-- Updating `is_granted` and `granted_by` does not change whether a row
matches the `(user, permission)` key. -/
theorem upMatches_update (uid pid : Nat) (g : Bool) (b : Option Nat) (r : UserPermissionRow) :
    upMatches uid pid { r with is_granted := g, granted_by := b } = upMatches uid pid r := rfl

/-- A row matching the key carries exactly that user and permission id. -/
theorem upMatches_key {uid pid : Nat} {r : UserPermissionRow}
    (h : upMatches uid pid r = true) : r.user_id = uid ∧ r.permission_id = pid := by
  simpa [upMatches] using h

/-- After one upsert, the rows matching the `(user, permission)` key are
exactly the single row carrying the written values — provided the store
respected the unique constraint (at most one matching row) beforehand. -/
theorem filter_update_or_create (rows : List UserPermissionRow) (uid pid : Nat)
    (g : Bool) (b : Option Nat)
    (h : (rows.filter (upMatches uid pid)).length ≤ 1) :
    ((update_or_create_user_permission rows uid pid g b).1).filter (upMatches uid pid)
      = [⟨uid, pid, g, b⟩] := by
  unfold update_or_create_user_permission
  by_cases hAny : rows.any (upMatches uid pid) = true
  · rw [if_pos hAny]
    rw [List.filter_map]
    have hpf : (upMatches uid pid ∘ fun r =>
        if upMatches uid pid r then { r with is_granted := g, granted_by := b } else r)
        = upMatches uid pid := by
      funext r
      by_cases hr : upMatches uid pid r = true
      · simp [Function.comp, hr, upMatches_update]
      · simp [Function.comp, hr]
    rw [hpf]
    obtain ⟨x, hmem, hx⟩ := List.any_eq_true.mp hAny
    have hlen1 : (rows.filter (upMatches uid pid)).length = 1 := by
      have : x ∈ rows.filter (upMatches uid pid) := List.mem_filter.mpr ⟨hmem, hx⟩
      have hpos : 0 < (rows.filter (upMatches uid pid)).length := List.length_pos.mpr
        (List.ne_nil_of_mem this)
      omega
    obtain ⟨r0, hr0⟩ := List.length_eq_one.mp hlen1
    have hr0m : upMatches uid pid r0 = true := by
      have : r0 ∈ rows.filter (upMatches uid pid) := by rw [hr0]; simp
      exact (List.mem_filter.mp this).2
    obtain ⟨hk1, hk2⟩ := upMatches_key hr0m
    rw [hr0]
    simp [List.map, hr0m]
    cases r0
    simp_all
  · rw [if_neg hAny]
    rw [List.filter_append]
    have h0 : rows.filter (upMatches uid pid) = [] := by
      rw [List.filter_eq_nil_iff]
      intro a hmem hpa
      exact hAny (List.any_eq_true.mpr ⟨a, hmem, hpa⟩)
    rw [h0]
    simp [upMatches_self]

/-- C9.  Issuing the grant/deny direct-permission endpoint twice for the same
`(user, permission)` pair — the target user and the permission existing, and
the store holding at most one row for the pair as the unique constraint
guarantees — leaves exactly one UserPermission row for the pair, carrying the
second call's `is_granted` and `granted_by`; the second call reports an
update (HTTP 200), not a create and not a failure. -/
theorem C9_grant_upsert_idempotent (st : Store) (b1 b2 : Option Nat) (uid pid : Nat)
    (g1 g2 : Bool)
    (hu : (st.users.filter (fun x => x.id == some uid)).length = 1)
    (hp : (st.permissions.filter (fun x => x.id == pid)).length = 1)
    (huniq : (st.user_permissions.filter (upMatches uid pid)).length ≤ 1) :
    ((grant_permission_to_user (grant_permission_to_user st b1 uid pid g1).2
        b2 uid pid g2).2.user_permissions.filter (upMatches uid pid)
      = [⟨uid, pid, g2, b2⟩]) ∧
    (grant_permission_to_user (grant_permission_to_user st b1 uid pid g1).2
        b2 uid pid g2).1 = .updated := by
  obtain ⟨xu, hxu⟩ := List.length_eq_one.mp hu
  obtain ⟨xp, hxp⟩ := List.length_eq_one.mp hp
  have hget_u : djangoGet st.users (fun x => x.id == some uid) = .found xu := by
    simp [djangoGet, hxu]
  have hget_p : djangoGet st.permissions (fun x => x.id == pid) = .found xp := by
    simp [djangoGet, hxp]
  have hst1 : grant_permission_to_user st b1 uid pid g1
      = ((if (update_or_create_user_permission st.user_permissions uid pid g1 b1).2
            then .created else .updated),
         { st with user_permissions :=
            (update_or_create_user_permission st.user_permissions uid pid g1 b1).1 }) := by
    rw [grant_permission_to_user, hget_u, hget_p]
  set rows1 := (update_or_create_user_permission st.user_permissions uid pid g1 b1).1 with hrows1
  have hfilter1 : rows1.filter (upMatches uid pid) = [⟨uid, pid, g1, b1⟩] :=
    filter_update_or_create st.user_permissions uid pid g1 b1 huniq
  have hany1 : rows1.any (upMatches uid pid) = true := by
    refine List.any_eq_true.mpr ⟨⟨uid, pid, g1, b1⟩, ?_, upMatches_self uid pid g1 b1⟩
    have : (⟨uid, pid, g1, b1⟩ : UserPermissionRow) ∈ rows1.filter (upMatches uid pid) := by
      rw [hfilter1]; simp
    exact (List.mem_filter.mp this).1
  have huniq1 : (rows1.filter (upMatches uid pid)).length ≤ 1 := by rw [hfilter1]; simp
  have hfilter2 : ((update_or_create_user_permission rows1 uid pid g2 b2).1).filter
      (upMatches uid pid) = [⟨uid, pid, g2, b2⟩] :=
    filter_update_or_create rows1 uid pid g2 b2 huniq1
  have hflag2 : (update_or_create_user_permission rows1 uid pid g2 b2).2 = false := by
    rw [update_or_create_user_permission, if_pos hany1]
  rw [hst1]
  have hst2 : grant_permission_to_user { st with user_permissions := rows1 } b2 uid pid g2
      = ((if (update_or_create_user_permission rows1 uid pid g2 b2).2
            then .created else .updated),
         { st with user_permissions :=
            (update_or_create_user_permission rows1 uid pid g2 b2).1 }) := by
    rw [grant_permission_to_user]
    show (match djangoGet st.users (fun x => x.id == some uid) with
      | _ => _) = _
    rw [hget_u, hget_p]
  rw [hst2]
  exact ⟨hfilter2, by rw [hflag2]; rfl⟩

/-- C9 witness: granting document.read to user 10 and then denying it leaves
exactly one direct row, denied, attributed to admin 99, with the second call
reporting an update. -/
theorem C9_witness :
    ((grant_permission_to_user (grant_permission_to_user stGrant (some 99) 10 1 true).2
        (some 99) 10 1 false).2.user_permissions.filter (upMatches 10 1)
      = [⟨10, 1, false, some 99⟩]) ∧
    (grant_permission_to_user (grant_permission_to_user stGrant (some 99) 10 1 true).2
        (some 99) 10 1 false).1 = .updated :=
  C9_grant_upsert_idempotent stGrant (some 99) (some 99) 10 1 true false
    (by decide) (by decide) (by decide)

end Perms
